import Mathlib

/-!
Shallow embedding of the `go-huma-test` Todo API (handler + sqlc persistence
layer) and verification of its specification claims.

Modelling conventions:
  * `sql.NullString` is a structure with the Go field names `String`/`Valid`.
  * The SQLite store is a `DB`: a list of rows plus the next auto-increment id.
  * Timestamps are `Nat` clock values; `CURRENT_TIMESTAMP` is passed in as a
    `now` argument.  Go's `time.Time.Format(time.RFC3339)` (standard library,
    an excluded collaborator) is modelled as an abstract injective rendering
    of the clock value to a string.
  * A query returning `sql.ErrNoRows` is modelled as `Option.none`; other
    driver/transaction failures are injected through a `TxFault` (for the
    transactional handlers) or a `qErr : Bool` (for the single-query
    handlers), mirroring the error branches of the Go code.
  * A nil-pointer dereference panic is the `HandlerResult.panics` outcome.
  * `defer tx.Rollback()` means every return before a successful `Commit`
    leaves the store unchanged; a transactional handler therefore returns the
    resulting store and whether the transaction committed.
-/

/-- Go `database/sql.NullString`. -/
structure NullString where
  String : String
  Valid : Bool
deriving Repr, DecidableEq

/-- Row of the `todos` table (sqlc-generated `db.Todo`); `Completed` is the
`INTEGER` 0/1 flag, timestamps are clock values. -/
structure Todo where
  ID : Int
  Title : String
  Description : NullString
  Completed : Int
  CreatedAt : Nat
  UpdatedAt : Nat
deriving Repr, DecidableEq

/-- The SQLite store: the `todos` table rows in insertion order plus the next
auto-increment primary key. -/
structure DB where
  rows : List Todo
  nextId : Int
deriving Repr, DecidableEq

/-- sqlc `db.CreateTodoParams`. -/
structure CreateTodoParams where
  Title : String
  Description : NullString
  Completed : Int
deriving Repr, DecidableEq

/-- sqlc `db.UpdateTodoParams`. -/
structure UpdateTodoParams where
  ID : Int
  Title : String
  Description : NullString
  Completed : Int
deriving Repr, DecidableEq

/-- Go `model.TodoResponse`; `Description : Option String` models the
`*string` JSON field with `omitempty`: `none` is a nil pointer (the field is
omitted from the serialized JSON), `some s` is a non-nil pointer (the field is
serialized, even when `s` is empty). -/
structure TodoResponse where
  ID : Int
  Title : String
  Description : Option String
  Completed : Bool
  CreatedAt : String
  UpdatedAt : String
deriving Repr, DecidableEq

/-- Go `model.ListTodosInput`. -/
structure ListTodosInput where
  Completed : Bool
deriving Repr, DecidableEq

/-- Go `model.GetTodoInput`. -/
structure GetTodoInput where
  ID : Int
deriving Repr, DecidableEq

/-- Go `model.CreateTodoInput` (the `Body` fields inlined); `Description` is
the optional `*string` JSON field: `none` models a nil pointer. -/
structure CreateTodoInput where
  Title : String
  Description : Option String
deriving Repr, DecidableEq

/-- Go `model.UpdateTodoInput` (path id plus the `Body` fields inlined). -/
structure UpdateTodoInput where
  ID : Int
  Title : String
  Description : Option String
  Completed : Bool
deriving Repr, DecidableEq

/-- Go `model.DeleteTodoInput`. -/
structure DeleteTodoInput where
  ID : Int
deriving Repr, DecidableEq

/-- Go `model.ToggleTodoInput`. -/
structure ToggleTodoInput where
  ID : Int
deriving Repr, DecidableEq

/-- Go `model.DeleteTodoOutput` body. -/
structure DeleteTodoOutput where
  Message : String
deriving Repr, DecidableEq

/-- The API-facing error classification produced by the handlers:
`huma.Error404NotFound` or `huma.Error500InternalServerError`, with the
handler's message. -/
inductive ApiError where
  | notFound (msg : String)
  | serverError (msg : String)
deriving Repr, DecidableEq

/-- Outcome of one handler invocation: a nil-pointer panic, an API error, or
a successful typed output. -/
inductive HandlerResult (α : Type) where
  | panics
  | fails (e : ApiError)
  | succeeds (a : α)
deriving Repr, DecidableEq

/-- Whether the handler returned a successful output. -/
def HandlerResult.isSucceeds {α : Type} : HandlerResult α → Bool
  | .succeeds _ => true
  | _ => false

/-- Whether the handler returned a not-found error. -/
def HandlerResult.isNotFound {α : Type} : HandlerResult α → Bool
  | .fails (.notFound _) => true
  | _ => false

/-- Whether the handler panicked. -/
def HandlerResult.isPanic {α : Type} : HandlerResult α → Bool
  | .panics => true
  | _ => false

/-- Injected failure of one step of a transactional handler: `ok` (no
injected failure), or a failing `BeginTx`, query execution, or `Commit`. -/
inductive TxFault where
  | ok
  | beginErr
  | queryErr
  | commitErr
deriving Repr, DecidableEq

/-- Result of a transactional handler invocation: the handler's outcome, the
store after the deferred rollback / commit has run, and whether the
transaction committed. -/
structure TxOutcome (α : Type) where
  result : HandlerResult α
  db : DB
  committed : Bool
deriving Repr, DecidableEq

namespace Queries

/-- Relation of the `ORDER BY created_at DESC` clause. -/
def createdDescR (a b : Todo) : Prop := b.CreatedAt ≤ a.CreatedAt

instance : DecidableRel createdDescR := fun a b =>
  inferInstanceAs (Decidable (b.CreatedAt ≤ a.CreatedAt))

instance : IsTotal Todo createdDescR :=
  ⟨fun a b => Nat.le_total b.CreatedAt a.CreatedAt⟩

instance : IsTrans Todo createdDescR :=
  ⟨fun _ _ _ hab hbc => Nat.le_trans hbc hab⟩

/-- Query `GetTodo :one` — `SELECT ... FROM todos WHERE id = ? LIMIT 1`; `none`
models `sql.ErrNoRows`. -/
def GetTodo (db : DB) (id : Int) : Option Todo :=
  db.rows.find? (fun r => r.ID == id)

/-- Query `ListTodos :many` — `SELECT ... FROM todos ORDER BY created_at DESC`. -/
def ListTodos (db : DB) : List Todo :=
  List.insertionSort createdDescR db.rows

/-- Query `ListTodosByStatus :many` — `SELECT ... WHERE completed = ?
ORDER BY created_at DESC`. -/
def ListTodosByStatus (db : DB) (completed : Int) : List Todo :=
  List.insertionSort createdDescR (db.rows.filter (fun r => r.Completed == completed))

/-- Query `CreateTodo :one` — `INSERT INTO todos (title, description, completed)
VALUES (?, ?, ?) RETURNING ...`; the store assigns the auto-increment id and
both timestamp columns default to `CURRENT_TIMESTAMP` (`now`). -/
def CreateTodo (db : DB) (p : CreateTodoParams) (now : Nat) : Todo × DB :=
  let t : Todo :=
    { ID := db.nextId, Title := p.Title, Description := p.Description,
      Completed := p.Completed, CreatedAt := now, UpdatedAt := now }
  (t, { rows := db.rows ++ [t], nextId := db.nextId + 1 })

/-- The row transformation of the `UpdateTodo` statement's `SET` clause. -/
def updateRow (p : UpdateTodoParams) (now : Nat) (r : Todo) : Todo :=
  if r.ID == p.ID then
    { r with Title := p.Title, Description := p.Description,
             Completed := p.Completed, UpdatedAt := now }
  else r

/-- Query `UpdateTodo :one` — `UPDATE todos SET title = ?, description = ?,
completed = ?, updated_at = CURRENT_TIMESTAMP WHERE id = ? RETURNING ...`;
`none` models the zero-affected-rows case where the `RETURNING` scan yields
`sql.ErrNoRows`. -/
def UpdateTodo (db : DB) (p : UpdateTodoParams) (now : Nat) : Option (Todo × DB) :=
  let rows' := db.rows.map (updateRow p now)
  match rows'.find? (fun r => r.ID == p.ID) with
  | some t => some (t, { db with rows := rows' })
  | none => none

/-- Query `DeleteTodo :exec` — `DELETE FROM todos WHERE id = ?`; affecting zero
rows is not an error. -/
def DeleteTodo (db : DB) (id : Int) : DB :=
  { db with rows := db.rows.filter (fun r => !(r.ID == id)) }

/-- The row transformation of the `ToggleTodoCompleted` statement's `SET`
clause: `completed = CASE WHEN completed = 0 THEN 1 ELSE 0 END`,
`updated_at = CURRENT_TIMESTAMP`. -/
def toggleRow (id : Int) (now : Nat) (r : Todo) : Todo :=
  if r.ID == id then
    { r with Completed := if r.Completed == 0 then 1 else 0, UpdatedAt := now }
  else r

/-- Query `ToggleTodoCompleted :one` — conditional update flipping the flag and
refreshing `updated_at`, `RETURNING` the row; `none` models
`sql.ErrNoRows` when the id matches no row. -/
def ToggleTodoCompleted (db : DB) (id : Int) (now : Nat) : Option (Todo × DB) :=
  let rows' := db.rows.map (toggleRow id now)
  match rows'.find? (fun r => r.ID == id) with
  | some t => some (t, { db with rows := rows' })
  | none => none

end Queries

/-- Go `handler.stringToNullString`: an empty input string becomes the
invalid (NULL) `sql.NullString`. -/
def stringToNullString (s : String) : NullString :=
  if s = "" then { String := "", Valid := false }
  else { String := s, Valid := true }

/-- Go `handler.nullStringToString`: NULL collapses to the empty string. -/
def nullStringToString (s : NullString) : String :=
  if s.Valid then s.String else ""

/-- Model of Go `time.Time.Format(time.RFC3339)` applied to a clock value.
The formatter itself is the standard library (an excluded collaborator); it
is modelled as an abstract injective rendering of the clock value. -/
def timeFormatRFC3339 (t : Nat) : String := toString t

/-- Go `handler.toTodoResponse`: row → response.  Note the Go code computes
`description := nullStringToString(t.Description)` and stores the address
`&description`, so the response's description pointer is always non-nil. -/
def toTodoResponse (t : Todo) : TodoResponse :=
  let description := nullStringToString t.Description
  { ID := t.ID
    Title := t.Title
    Description := some description
    Completed := t.Completed == 1
    CreatedAt := timeFormatRFC3339 t.CreatedAt
    UpdatedAt := timeFormatRFC3339 t.UpdatedAt }

namespace TodoHandler

/-- Go `TodoHandler.ListTodos`: branch on the completion filter, run the
matching query, map rows to responses; a query error is a 500. -/
def ListTodos (qErr : Bool) (db : DB) (input : ListTodosInput) :
    HandlerResult (List TodoResponse) :=
  if qErr then .fails (.serverError "Todoリストの取得に失敗")
  else
    let todos := if input.Completed then Queries.ListTodosByStatus db 1
                 else Queries.ListTodos db
    .succeeds (todos.map toTodoResponse)

/-- Go `TodoHandler.GetTodo`: `sql.ErrNoRows` → 404 carrying the id, any
other query error → 500. -/
def GetTodo (qErr : Bool) (db : DB) (input : GetTodoInput) :
    HandlerResult TodoResponse :=
  if qErr then .fails (.serverError "Todo取得に失敗")
  else
    match Queries.GetTodo db input.ID with
    | none => .fails (.notFound ("Todo IDが見つかりません: " ++ toString input.ID))
    | some todo => .succeeds (toTodoResponse todo)

/-- Go `TodoHandler.CreateTodo`: dereferences `*input.Body.Description`
first (nil pointer → panic), then inserts with `Completed: 0`; a query error
is a 500. -/
def CreateTodo (qErr : Bool) (db : DB) (now : Nat) (input : CreateTodoInput) :
    HandlerResult TodoResponse × DB :=
  match input.Description with
  | none => (.panics, db)
  | some s =>
    let description := stringToNullString s
    if qErr then (.fails (.serverError "Todo作成に失敗"), db)
    else
      let (todo, db') := Queries.CreateTodo db
        { Title := input.Title, Description := description, Completed := 0 } now
      (.succeeds (toTodoResponse todo), db')

/-- Go `TodoHandler.UpdateTodo`: begin a transaction with deferred rollback,
compute the 0/1 flag, dereference `*input.Body.Description` (nil → panic),
run the `RETURNING` update (any error, including `sql.ErrNoRows`, → 500),
commit (error → 500); only a successful commit publishes the new store. -/
def UpdateTodo (fault : TxFault) (db : DB) (now : Nat) (input : UpdateTodoInput) :
    TxOutcome TodoResponse :=
  if fault = .beginErr then
    ⟨.fails (.serverError "トランザクション開始に失敗"), db, false⟩
  else
    let completed : Int := if input.Completed then 1 else 0
    match input.Description with
    | none => ⟨.panics, db, false⟩
    | some s =>
      let description := stringToNullString s
      if fault = .queryErr then
        ⟨.fails (.serverError "Todo更新に失敗"), db, false⟩
      else
        match Queries.UpdateTodo db
            { ID := input.ID, Title := input.Title,
              Description := description, Completed := completed } now with
        | none => ⟨.fails (.serverError "Todo更新に失敗"), db, false⟩
        | some (todo, db') =>
          if fault = .commitErr then
            ⟨.fails (.serverError "トランザクションのコミットに失敗"), db, false⟩
          else ⟨.succeeds (toTodoResponse todo), db', true⟩

/-- Go `TodoHandler.DeleteTodo`: begin/deferred-rollback, delete-by-id (no
existence check, zero affected rows is fine), commit; success is a fixed
confirmation message. -/
def DeleteTodo (fault : TxFault) (db : DB) (input : DeleteTodoInput) :
    TxOutcome DeleteTodoOutput :=
  if fault = .beginErr then
    ⟨.fails (.serverError "トランザクション開始に失敗"), db, false⟩
  else if fault = .queryErr then
    ⟨.fails (.serverError "Todo削除に失敗"), db, false⟩
  else
    let db' := Queries.DeleteTodo db input.ID
    if fault = .commitErr then
      ⟨.fails (.serverError "トランザクションのコミットに失敗"), db, false⟩
    else ⟨.succeeds { Message := "Todo deleted successfully" }, db', true⟩

/-- Go `TodoHandler.ToggleTodo`: begin/deferred-rollback, run the toggling
`RETURNING` update (any error, including `sql.ErrNoRows`, → 500), commit. -/
def ToggleTodo (fault : TxFault) (db : DB) (now : Nat) (input : ToggleTodoInput) :
    TxOutcome TodoResponse :=
  if fault = .beginErr then
    ⟨.fails (.serverError "トランザクション開始に失敗"), db, false⟩
  else if fault = .queryErr then
    ⟨.fails (.serverError "Todoのトグルに失敗"), db, false⟩
  else
    match Queries.ToggleTodoCompleted db input.ID now with
    | none => ⟨.fails (.serverError "Todoのトグルに失敗"), db, false⟩
    | some (todo, db') =>
      if fault = .commitErr then
        ⟨.fails (.serverError "トランザクションのコミットに失敗"), db, false⟩
      else ⟨.succeeds (toTodoResponse todo), db', true⟩

end TodoHandler

/-! ### Helper lemmas -/

theorem updateRow_ID (p : UpdateTodoParams) (now : Nat) (r : Todo) :
    (Queries.updateRow p now r).ID = r.ID := by
  unfold Queries.updateRow
  split <;> rfl

theorem toggleRow_ID (id : Int) (now : Nat) (r : Todo) :
    (Queries.toggleRow id now r).ID = r.ID := by
  unfold Queries.toggleRow
  split <;> rfl

theorem find_id_map_eq (rows : List Todo) (id : Int) (f : Todo → Todo)
    (hf : ∀ r, (f r).ID = r.ID) :
    (rows.map f).find? (fun r => r.ID == id)
      = Option.map f (rows.find? (fun r => r.ID == id)) := by
  rw [List.find?_map]
  have hpred : ((fun r : Todo => r.ID == id) ∘ f) = fun r : Todo => r.ID == id := by
    funext r
    simp [Function.comp_apply, hf]
  rw [hpred]

theorem update_none_of_absent (db : DB) (p : UpdateTodoParams) (now : Nat)
    (h : Queries.GetTodo db p.ID = none) :
    Queries.UpdateTodo db p now = none := by
  unfold Queries.GetTodo at h
  have hfind : (db.rows.map (Queries.updateRow p now)).find? (fun r => r.ID == p.ID)
      = none := by
    rw [find_id_map_eq db.rows p.ID _ (updateRow_ID p now), h]
    rfl
  simp only [Queries.UpdateTodo, hfind]

theorem toggle_none_of_absent (db : DB) (id : Int) (now : Nat)
    (h : Queries.GetTodo db id = none) :
    Queries.ToggleTodoCompleted db id now = none := by
  unfold Queries.GetTodo at h
  have hfind : (db.rows.map (Queries.toggleRow id now)).find? (fun r => r.ID == id)
      = none := by
    rw [find_id_map_eq db.rows id _ (toggleRow_ID id now), h]
    rfl
  simp only [Queries.ToggleTodoCompleted, hfind]

/-! ### Claims -/

/-- Claim C1 counterexample: a fault-free update (resp. toggle) of id 1 on an
empty store — so `sql.ErrNoRows` surfaces from the `RETURNING` query — yields
a generic 500 server error, not the not-found error the claim requires. -/
theorem C1_absent_update_toggle_counterexample :
    ((TodoHandler.UpdateTodo .ok ⟨[], 1⟩ 0 ⟨1, "t", some "", false⟩).result
        = .fails (.serverError "Todo更新に失敗"))
    ∧ ((TodoHandler.UpdateTodo .ok ⟨[], 1⟩ 0 ⟨1, "t", some "", false⟩).result.isNotFound
        = false)
    ∧ ((TodoHandler.ToggleTodo .ok ⟨[], 1⟩ 0 ⟨1⟩).result
        = .fails (.serverError "Todoのトグルに失敗"))
    ∧ ((TodoHandler.ToggleTodo .ok ⟨[], 1⟩ 0 ⟨1⟩).result.isNotFound = false) :=
  ⟨rfl, rfl, rfl, rfl⟩

/-- Claim C1 (amended): for an id with no matching row, the get handler
yields a not-found error carrying the requested id, while the update and
toggle handlers map the zero-affected-rows `sql.ErrNoRows` from the
`RETURNING` query to a generic 500 server error — never to a successful
outcome and never to not-found. -/
theorem C1_absent_id_error_classification (db : DB) (id : Int)
    (habs : Queries.GetTodo db id = none)
    (title s : String) (c : Bool) (now : Nat) :
    TodoHandler.GetTodo false db ⟨id⟩
      = .fails (.notFound ("Todo IDが見つかりません: " ++ toString id))
    ∧ (TodoHandler.UpdateTodo .ok db now ⟨id, title, some s, c⟩).result
      = .fails (.serverError "Todo更新に失敗")
    ∧ (TodoHandler.UpdateTodo .ok db now ⟨id, title, some s, c⟩).result.isSucceeds
      = false
    ∧ (TodoHandler.ToggleTodo .ok db now ⟨id⟩).result
      = .fails (.serverError "Todoのトグルに失敗")
    ∧ (TodoHandler.ToggleTodo .ok db now ⟨id⟩).result.isSucceeds = false := by
  have hupd : Queries.UpdateTodo db
      { ID := id, Title := title, Description := stringToNullString s,
        Completed := if c then 1 else 0 } now = none :=
    update_none_of_absent db _ now habs
  have htog : Queries.ToggleTodoCompleted db id now = none :=
    toggle_none_of_absent db id now habs
  have hget : TodoHandler.GetTodo false db ⟨id⟩
      = .fails (.notFound ("Todo IDが見つかりません: " ++ toString id)) := by
    unfold TodoHandler.GetTodo
    rw [if_neg (by simp)]
    simp only [habs]
  have hupdr : (TodoHandler.UpdateTodo .ok db now ⟨id, title, some s, c⟩).result
      = .fails (.serverError "Todo更新に失敗") := by
    unfold TodoHandler.UpdateTodo
    simp only [reduceCtorEq, if_neg, if_false]
    rw [hupd]
  have htogr : (TodoHandler.ToggleTodo .ok db now ⟨id⟩).result
      = .fails (.serverError "Todoのトグルに失敗") := by
    unfold TodoHandler.ToggleTodo
    simp only [reduceCtorEq, if_neg, if_false]
    rw [htog]
  refine ⟨hget, hupdr, by rw [hupdr]; rfl, htogr, by rw [htogr]; rfl⟩

/-- Claim C1 witness: the amended classification evaluated on the empty
store at id 1. -/
theorem C1_absent_id_error_classification_witness :
    Queries.GetTodo ⟨[], 1⟩ 1 = none
    ∧ TodoHandler.GetTodo false ⟨[], 1⟩ ⟨1⟩
        = .fails (.notFound ("Todo IDが見つかりません: " ++ toString (1 : Int))) :=
  ⟨rfl, (C1_absent_id_error_classification ⟨[], 1⟩ 1 rfl "t" "" false 0).1⟩

/-- Claim C2 (code bug): for a stored row whose description is NULL, the
handler's response carries a non-nil pointer to the empty string — the
serialized JSON therefore contains `description: ""` (present) instead of
omitting the field. -/
theorem C2_null_description_forced_empty_string :
    (toTodoResponse ⟨1, "title", ⟨"", false⟩, 0, 5, 6⟩).Description = some ""
    ∧ ((toTodoResponse ⟨1, "title", ⟨"", false⟩, 0, 5, 6⟩).Description).isSome
      = true :=
  ⟨rfl, rfl⟩

/-- Claim C3 counterexample: an update input with a nil description pointer
does not panic when `BeginTx` fails — the handler returns the begin-failure
server error before ever dereferencing the pointer, so the dereference is
neither unconditional nor before all other work. -/
theorem C3_nil_description_no_panic_counterexample :
    ((TodoHandler.UpdateTodo .beginErr ⟨[], 1⟩ 0 ⟨1, "t", none, false⟩).result
        = .fails (.serverError "トランザクション開始に失敗"))
    ∧ ((TodoHandler.UpdateTodo .beginErr ⟨[], 1⟩ 0 ⟨1, "t", none, false⟩).result.isPanic
        = false) :=
  ⟨rfl, rfl⟩

/-- Claim C3 (amended): CreateTodo dereferences the description pointer as
its first step and panics on every nil-description input; UpdateTodo
dereferences it only after the transaction begin, so it panics on a
nil-description input exactly when begin did not fail.  Both handlers are
panic-free only under the precondition that the description pointer is
non-nil. -/
theorem C3_nil_description_panics (qErr : Bool) (db : DB) (now : Nat)
    (cin : CreateTodoInput) (uin : UpdateTodoInput) (fault : TxFault)
    (h1 : cin.Description = none) (h2 : uin.Description = none)
    (h3 : fault ≠ .beginErr) :
    (TodoHandler.CreateTodo qErr db now cin).1 = .panics
    ∧ (TodoHandler.UpdateTodo fault db now uin).result = .panics := by
  constructor
  · unfold TodoHandler.CreateTodo
    rw [h1]
  · unfold TodoHandler.UpdateTodo
    rw [if_neg h3, h2]

/-- Claim C3 witness: the amended panic behaviour evaluated at concrete
nil-description inputs with a fault-free run. -/
theorem C3_nil_description_panics_witness :
    (⟨"t", none⟩ : CreateTodoInput).Description = none
    ∧ (⟨1, "t", none, false⟩ : UpdateTodoInput).Description = none
    ∧ TxFault.ok ≠ TxFault.beginErr
    ∧ (TodoHandler.CreateTodo false ⟨[], 1⟩ 0 ⟨"t", none⟩).1 = .panics
    ∧ (TodoHandler.UpdateTodo .ok ⟨[], 1⟩ 0 ⟨1, "t", none, false⟩).result
        = .panics :=
  ⟨rfl, rfl, by decide,
   (C3_nil_description_panics false ⟨[], 1⟩ 0 ⟨"t", none⟩ ⟨1, "t", none, false⟩
      .ok rfl rfl (by decide)).1,
   (C3_nil_description_panics false ⟨[], 1⟩ 0 ⟨"t", none⟩ ⟨1, "t", none, false⟩
      .ok rfl rfl (by decide)).2⟩

/-- Claim C8: for every id — including one with no matching row — the
fault-free delete handler commits and succeeds with the fixed confirmation
message "Todo deleted successfully" (not the deleted entity); no existence
check is made, and deleting an absent id leaves the store unchanged. -/
theorem C8_delete_no_existence_check (db : DB) (id : Int) :
    (TodoHandler.DeleteTodo .ok db ⟨id⟩).result
      = .succeeds ⟨"Todo deleted successfully"⟩
    ∧ (TodoHandler.DeleteTodo .ok db ⟨id⟩).committed = true
    ∧ (TodoHandler.DeleteTodo .ok db ⟨id⟩).db = Queries.DeleteTodo db id
    ∧ (Queries.GetTodo db id = none →
        (TodoHandler.DeleteTodo .ok db ⟨id⟩).db = db) := by
  refine ⟨rfl, rfl, rfl, fun habs => ?_⟩
  have hfilter : db.rows.filter (fun r => !(r.ID == id)) = db.rows := by
    rw [List.filter_eq_self]
    intro a ha
    have hna := List.find?_eq_none.mp habs a ha
    simpa using hna
  show Queries.DeleteTodo db id = db
  unfold Queries.DeleteTodo
  rw [hfilter]

/-- Claim C8 witness: deleting id 5 from the empty store succeeds with the
confirmation message and leaves the store unchanged. -/
theorem C8_delete_no_existence_check_witness :
    Queries.GetTodo ⟨[], 1⟩ 5 = none
    ∧ (TodoHandler.DeleteTodo .ok ⟨[], 1⟩ ⟨5⟩).db = ⟨[], 1⟩ :=
  ⟨rfl, (C8_delete_no_existence_check ⟨[], 1⟩ 5).2.2.2 rfl⟩

/-- Claim C4: the fault-free list handler always returns the rows ordered by
`created_at` descending; with the completion filter set it returns exactly
the rows with `completed = 1`, and with the filter unset it returns all
rows. -/
theorem C4_list_ordering_and_filter (db : DB) :
    (TodoHandler.ListTodos false db ⟨true⟩
        = .succeeds ((Queries.ListTodosByStatus db 1).map toTodoResponse))
    ∧ (Queries.ListTodosByStatus db 1).Perm
        (db.rows.filter (fun r => r.Completed == 1))
    ∧ List.Sorted Queries.createdDescR (Queries.ListTodosByStatus db 1)
    ∧ (TodoHandler.ListTodos false db ⟨false⟩
        = .succeeds ((Queries.ListTodos db).map toTodoResponse))
    ∧ (Queries.ListTodos db).Perm db.rows
    ∧ List.Sorted Queries.createdDescR (Queries.ListTodos db) :=
  ⟨rfl, List.perm_insertionSort _ _, List.sorted_insertionSort _ _,
   rfl, List.perm_insertionSort _ _, List.sorted_insertionSort _ _⟩

/-- Claim C5: each transactional handler (update, delete, toggle) commits
exactly when its run succeeds, and any non-successful run — a failing begin,
query or commit, a zero-row update, or a panic caught by the deferred
rollback — leaves the store unchanged. -/
theorem C5_transaction_discipline (fault : TxFault) (db : DB) (now : Nat)
    (uin : UpdateTodoInput) (din : DeleteTodoInput) (tin : ToggleTodoInput) :
    ((TodoHandler.UpdateTodo fault db now uin).committed
        = (TodoHandler.UpdateTodo fault db now uin).result.isSucceeds)
    ∧ ((TodoHandler.UpdateTodo fault db now uin).result.isSucceeds = false →
        (TodoHandler.UpdateTodo fault db now uin).db = db)
    ∧ ((TodoHandler.DeleteTodo fault db din).committed
        = (TodoHandler.DeleteTodo fault db din).result.isSucceeds)
    ∧ ((TodoHandler.DeleteTodo fault db din).result.isSucceeds = false →
        (TodoHandler.DeleteTodo fault db din).db = db)
    ∧ ((TodoHandler.ToggleTodo fault db now tin).committed
        = (TodoHandler.ToggleTodo fault db now tin).result.isSucceeds)
    ∧ ((TodoHandler.ToggleTodo fault db now tin).result.isSucceeds = false →
        (TodoHandler.ToggleTodo fault db now tin).db = db) := by
  unfold TodoHandler.UpdateTodo TodoHandler.DeleteTodo TodoHandler.ToggleTodo
  refine ⟨?_, ?_, ?_, ?_, ?_, ?_⟩ <;>
    · repeat' split
      all_goals try simp_all [HandlerResult.isSucceeds]
      all_goals repeat' split
      all_goals simp_all [HandlerResult.isSucceeds]

/-- Claim C5 witness: a failing commit on a concrete one-row store leaves the
store unchanged and uncommitted for all three handlers. -/
theorem C5_transaction_discipline_witness :
    ((TodoHandler.UpdateTodo .commitErr ⟨[⟨1, "t", ⟨"", false⟩, 0, 0, 0⟩], 2⟩ 3
        ⟨1, "u", some "d", true⟩).result.isSucceeds = false)
    ∧ ((TodoHandler.UpdateTodo .commitErr ⟨[⟨1, "t", ⟨"", false⟩, 0, 0, 0⟩], 2⟩ 3
        ⟨1, "u", some "d", true⟩).db = ⟨[⟨1, "t", ⟨"", false⟩, 0, 0, 0⟩], 2⟩)
    ∧ ((TodoHandler.DeleteTodo .commitErr ⟨[⟨1, "t", ⟨"", false⟩, 0, 0, 0⟩], 2⟩
        ⟨1⟩).db = ⟨[⟨1, "t", ⟨"", false⟩, 0, 0, 0⟩], 2⟩)
    ∧ ((TodoHandler.ToggleTodo .commitErr ⟨[⟨1, "t", ⟨"", false⟩, 0, 0, 0⟩], 2⟩ 3
        ⟨1⟩).db = ⟨[⟨1, "t", ⟨"", false⟩, 0, 0, 0⟩], 2⟩) :=
  ⟨by decide,
   (C5_transaction_discipline .commitErr ⟨[⟨1, "t", ⟨"", false⟩, 0, 0, 0⟩], 2⟩ 3
      ⟨1, "u", some "d", true⟩ ⟨1⟩ ⟨1⟩).2.1 (by decide),
   (C5_transaction_discipline .commitErr ⟨[⟨1, "t", ⟨"", false⟩, 0, 0, 0⟩], 2⟩ 3
      ⟨1, "u", some "d", true⟩ ⟨1⟩ ⟨1⟩).2.2.2.1 (by decide),
   (C5_transaction_discipline .commitErr ⟨[⟨1, "t", ⟨"", false⟩, 0, 0, 0⟩], 2⟩ 3
      ⟨1, "u", some "d", true⟩ ⟨1⟩ ⟨1⟩).2.2.2.2.2 (by decide)⟩

theorem updated_row_description (p : UpdateTodoParams) (now : Nat) (r0 : Todo)
    (hid : (Queries.updateRow p now r0).ID = p.ID) :
    (Queries.updateRow p now r0).Description = p.Description := by
  unfold Queries.updateRow at hid ⊢
  by_cases h : (r0.ID == p.ID) = true
  · rw [if_pos h]
  · rw [if_neg h] at hid
    exact absurd (beq_iff_eq.mpr hid) h

theorem absent_of_update_none (db : DB) (p : UpdateTodoParams) (now : Nat)
    (h : Queries.UpdateTodo db p now = none) :
    Queries.GetTodo db p.ID = none := by
  simp only [Queries.UpdateTodo] at h
  rcases hf : (db.rows.map (Queries.updateRow p now)).find? (fun r => r.ID == p.ID)
    with _ | t
  · rw [find_id_map_eq db.rows p.ID _ (updateRow_ID p now)] at hf
    unfold Queries.GetTodo
    exact Option.map_eq_none.mp hf
  · simp [hf] at h

theorem update_some_elim (db : DB) (p : UpdateTodoParams) (now : Nat)
    (t : Todo) (db' : DB)
    (h : Queries.UpdateTodo db p now = some (t, db')) :
    db'.rows = db.rows.map (Queries.updateRow p now) := by
  simp only [Queries.UpdateTodo] at h
  rcases hf : (db.rows.map (Queries.updateRow p now)).find? (fun r => r.ID == p.ID)
    with _ | t'
  · simp [hf] at h
  · simp only [hf] at h
    obtain ⟨-, rfl⟩ : t' = t ∧
        (⟨db.rows.map (Queries.updateRow p now), db.nextId⟩ : DB) = db' := by
      simpa using h
    rfl

theorem toggle_some_elim (db : DB) (id : Int) (now : Nat)
    (t : Todo) (db' : DB)
    (h : Queries.ToggleTodoCompleted db id now = some (t, db')) :
    db'.rows = db.rows.map (Queries.toggleRow id now) := by
  simp only [Queries.ToggleTodoCompleted] at h
  rcases hf : (db.rows.map (Queries.toggleRow id now)).find? (fun r => r.ID == id)
    with _ | t'
  · simp [hf] at h
  · simp only [hf] at h
    obtain ⟨-, rfl⟩ : t' = t ∧
        (⟨db.rows.map (Queries.toggleRow id now), db.nextId⟩ : DB) = db' := by
      simpa using h
    rfl

/-- Claim C7: the create and update handlers route the input description
through `stringToNullString` at the persistence boundary: the inserted row
(and every updated row) stores the NULL `sql.NullString` when the input
string is empty and the valid string itself otherwise. -/
theorem C7_description_normalization (db : DB) (now : Nat) (title s : String)
    (id : Int) (c : Bool) :
    ((TodoHandler.CreateTodo false db now ⟨title, some s⟩).2.rows
      = db.rows ++ [{ ID := db.nextId, Title := title,
                      Description := stringToNullString s, Completed := 0,
                      CreatedAt := now, UpdatedAt := now }])
    ∧ (∀ r ∈ (TodoHandler.UpdateTodo .ok db now ⟨id, title, some s, c⟩).db.rows,
        r.ID = id → r.Description = stringToNullString s)
    ∧ stringToNullString "" = { String := "", Valid := false }
    ∧ (s ≠ "" → stringToNullString s = { String := s, Valid := true }) := by
  refine ⟨rfl, ?_, rfl, fun hs => by unfold stringToNullString; rw [if_neg hs]⟩
  intro r hr hid
  unfold TodoHandler.UpdateTodo at hr
  simp only [reduceCtorEq, reduceIte] at hr
  set p : UpdateTodoParams :=
    { ID := id, Title := title, Description := stringToNullString s,
      Completed := if c then 1 else 0 } with hp
  rcases hq : Queries.UpdateTodo db p now with _ | ⟨t, db'⟩
  · rw [hq] at hr
    simp only at hr
    have habs : Queries.GetTodo db id = none := absent_of_update_none db p now hq
    exact absurd (List.find?_eq_none.mp habs r hr) (by simp [hid])
  · rw [hq] at hr
    simp only at hr
    rw [update_some_elim db p now t db' hq] at hr
    rcases List.mem_map.mp hr with ⟨r0, _, rfl⟩
    exact updated_row_description p now r0 (by rw [hid, hp])

/-- Claim C7 witness: the normalization evaluated at a concrete empty and a
concrete non-empty description. -/
theorem C7_description_normalization_witness :
    ((TodoHandler.CreateTodo false ⟨[], 1⟩ 7 ⟨"t", some ""⟩).2.rows
      = [{ ID := 1, Title := "t", Description := ⟨"", false⟩, Completed := 0,
           CreatedAt := 7, UpdatedAt := 7 }])
    ∧ ("x" ≠ "")
    ∧ stringToNullString "x" = { String := "x", Valid := true } :=
  ⟨by
    have h := (C7_description_normalization ⟨[], 1⟩ 7 "t" "" 1 false).1
    simpa using h,
   by decide,
   (C7_description_normalization ⟨[], 1⟩ 7 "t" "x" 1 false).2.2.2
     (by decide)⟩

theorem nullString_roundtrip (s : String) :
    nullStringToString (stringToNullString s) = s := by
  unfold stringToNullString nullStringToString
  by_cases h : s = ""
  · rw [if_pos h, if_neg (by decide)]
    exact h.symm
  · rw [if_neg h, if_pos rfl]

/-- Claim C9: a fault-free create with a present description inserts a row
with `completed = 0`, the store-assigned id and creation timestamps, and
returns the persisted entity whose title and description match the input
with `completed = false`; a subsequent get of the assigned id returns the
same entity. -/
theorem C9_create_then_get (db : DB) (now : Nat) (title s : String)
    (hfresh : ∀ r ∈ db.rows, r.ID ≠ db.nextId) :
    ∃ resp db',
      TodoHandler.CreateTodo false db now ⟨title, some s⟩ = (.succeeds resp, db')
      ∧ resp.ID = db.nextId
      ∧ resp.Title = title
      ∧ resp.Description = some s
      ∧ resp.Completed = false
      ∧ db'.rows = db.rows ++
          [{ ID := db.nextId, Title := title, Description := stringToNullString s,
             Completed := 0, CreatedAt := now, UpdatedAt := now }]
      ∧ TodoHandler.GetTodo false db' ⟨db.nextId⟩ = .succeeds resp := by
  refine ⟨_, _, rfl, rfl, rfl, ?_, rfl, rfl, ?_⟩
  · show (toTodoResponse _).Description = some s
    simp only [toTodoResponse]
    rw [nullString_roundtrip]
  · have h1 : db.rows.find? (fun r => r.ID == db.nextId) = none :=
      List.find?_eq_none.mpr (fun r hr => by simpa using hfresh r hr)
    have h2 : (db.rows ++
        [({ ID := db.nextId, Title := title, Description := stringToNullString s,
            Completed := 0, CreatedAt := now, UpdatedAt := now } : Todo)]).find?
          (fun r => r.ID == db.nextId)
        = some ({ ID := db.nextId, Title := title,
                  Description := stringToNullString s, Completed := 0,
                  CreatedAt := now, UpdatedAt := now } : Todo) := by
      rw [List.find?_append, h1]
      simp
    simp only [TodoHandler.GetTodo, Queries.GetTodo, Bool.false_eq_true,
      if_false, h2]

/-- Claim C9 witness: create on the empty store at clock 7, then get id 1. -/
theorem C9_create_then_get_witness :
    (∀ r ∈ (⟨[], 1⟩ : DB).rows, r.ID ≠ (⟨[], 1⟩ : DB).nextId)
    ∧ ∃ resp db',
        TodoHandler.CreateTodo false ⟨[], 1⟩ 7 ⟨"t", some "d"⟩
          = (.succeeds resp, db')
        ∧ resp.ID = (⟨[], 1⟩ : DB).nextId
        ∧ resp.Title = "t"
        ∧ resp.Description = some "d"
        ∧ resp.Completed = false
        ∧ db'.rows = (⟨[], 1⟩ : DB).rows ++
            [{ ID := 1, Title := "t", Description := stringToNullString "d",
               Completed := 0, CreatedAt := 7, UpdatedAt := 7 }]
        ∧ TodoHandler.GetTodo false db' ⟨(⟨[], 1⟩ : DB).nextId⟩ = .succeeds resp :=
  ⟨fun r hr => by simp at hr,
   C9_create_then_get ⟨[], 1⟩ 7 "t" "d" (fun r hr => by simp at hr)⟩

/-- Claim C6: for an existing id, one application of `ToggleTodoCompleted`
flips the stored 0/1 flag in a single conditional update and sets
`updated_at` to the current clock; applying it twice (with the clock
advancing) returns the row's `completed` value to its original 0/1 value,
with `updated_at` strictly advancing on both applications. -/
theorem C6_toggle_twice_restores (db : DB) (id : Int) (t1 t2 : Nat) (r : Todo)
    (hmem : Queries.GetTodo db id = some r)
    (hc : r.Completed = 0 ∨ r.Completed = 1)
    (h1 : r.UpdatedAt < t1) (h2 : t1 < t2) :
    ∃ r1 db1 r2 db2,
      Queries.ToggleTodoCompleted db id t1 = some (r1, db1)
      ∧ Queries.ToggleTodoCompleted db1 id t2 = some (r2, db2)
      ∧ r1.Completed = (if r.Completed == 0 then 1 else 0)
      ∧ r1.UpdatedAt = t1
      ∧ r.UpdatedAt < r1.UpdatedAt
      ∧ r2.Completed = r.Completed
      ∧ r2.UpdatedAt = t2
      ∧ r1.UpdatedAt < r2.UpdatedAt := by
  unfold Queries.GetTodo at hmem
  have hid : (r.ID == id) = true := by
    have h := List.find?_some hmem
    simpa using h
  have hf1 : (db.rows.map (Queries.toggleRow id t1)).find? (fun x => x.ID == id)
      = some (Queries.toggleRow id t1 r) := by
    rw [find_id_map_eq db.rows id _ (toggleRow_ID id t1), hmem]
    rfl
  have hf2 : ((db.rows.map (Queries.toggleRow id t1)).map
        (Queries.toggleRow id t2)).find? (fun x => x.ID == id)
      = some (Queries.toggleRow id t2 (Queries.toggleRow id t1 r)) := by
    rw [find_id_map_eq _ id _ (toggleRow_ID id t2), hf1]
    rfl
  have hr1 : Queries.toggleRow id t1 r
      = { r with Completed := (if r.Completed == 0 then 1 else 0),
                 UpdatedAt := t1 } := by
    unfold Queries.toggleRow
    rw [if_pos hid]
  have hr2 : Queries.toggleRow id t2 (Queries.toggleRow id t1 r)
      = { r with
          Completed := if (if r.Completed == 0 then (1 : Int) else 0) == 0 then 1 else 0
          UpdatedAt := t2 } := by
    rw [hr1]
    unfold Queries.toggleRow
    rw [if_pos hid]
  refine ⟨Queries.toggleRow id t1 r,
    ⟨db.rows.map (Queries.toggleRow id t1), db.nextId⟩,
    Queries.toggleRow id t2 (Queries.toggleRow id t1 r),
    ⟨(db.rows.map (Queries.toggleRow id t1)).map (Queries.toggleRow id t2),
      db.nextId⟩,
    by simp only [Queries.ToggleTodoCompleted, hf1],
    by simp only [Queries.ToggleTodoCompleted, hf2],
    by rw [hr1],
    by rw [hr1],
    by rw [hr1]; exact h1,
    ?_,
    by rw [hr2],
    by rw [hr2, hr1]; exact h2⟩
  rw [hr2]
  rcases hc with h | h <;> simp [h]

/-- Claim C6 witness: toggling the single stored row (id 1, `completed = 0`,
`updated_at = 0`) at clocks 1 and then 2. -/
theorem C6_toggle_twice_restores_witness :
    Queries.GetTodo ⟨[⟨1, "t", ⟨"", false⟩, 0, 0, 0⟩], 2⟩ 1
        = some ⟨1, "t", ⟨"", false⟩, 0, 0, 0⟩
    ∧ ((⟨1, "t", ⟨"", false⟩, 0, 0, 0⟩ : Todo).Completed = 0
        ∨ (⟨1, "t", ⟨"", false⟩, 0, 0, 0⟩ : Todo).Completed = 1)
    ∧ (⟨1, "t", ⟨"", false⟩, 0, 0, 0⟩ : Todo).UpdatedAt < 1
    ∧ (1 : Nat) < 2
    ∧ ∃ r1 db1 r2 db2,
        Queries.ToggleTodoCompleted ⟨[⟨1, "t", ⟨"", false⟩, 0, 0, 0⟩], 2⟩ 1 1
          = some (r1, db1)
        ∧ Queries.ToggleTodoCompleted db1 1 2 = some (r2, db2)
        ∧ r1.Completed
          = (if (⟨1, "t", ⟨"", false⟩, 0, 0, 0⟩ : Todo).Completed == 0
             then 1 else 0)
        ∧ r1.UpdatedAt = 1
        ∧ (⟨1, "t", ⟨"", false⟩, 0, 0, 0⟩ : Todo).UpdatedAt < r1.UpdatedAt
        ∧ r2.Completed = (⟨1, "t", ⟨"", false⟩, 0, 0, 0⟩ : Todo).Completed
        ∧ r2.UpdatedAt = 2
        ∧ r1.UpdatedAt < r2.UpdatedAt :=
  ⟨rfl, Or.inl rfl, by decide, by decide,
   C6_toggle_twice_restores ⟨[⟨1, "t", ⟨"", false⟩, 0, 0, 0⟩], 2⟩ 1 1 2
     ⟨1, "t", ⟨"", false⟩, 0, 0, 0⟩ rfl (Or.inl rfl) (by decide) (by decide)⟩

/-- Claim C10: the update and toggle statements preserve every row's `id`
and `created_at`, set `updated_at` to the current clock exactly on the rows
the `WHERE` clause names, and leave non-matching rows entirely unchanged
(toggle additionally preserves `title` and `description` of matching rows);
delete only removes rows, and create only appends the new row — so no
persistence operation ever writes `created_at` after creation. -/
theorem C10_frame_conditions (db : DB) (p : UpdateTodoParams) (id : Int)
    (now : Nat) (q : CreateTodoParams) :
    (∀ t db1, Queries.UpdateTodo db p now = some (t, db1) →
      db1.rows.length = db.rows.length
      ∧ ∀ i (hi : i < db.rows.length) (hi' : i < db1.rows.length),
          (db1.rows.get ⟨i, hi'⟩).ID = (db.rows.get ⟨i, hi⟩).ID
          ∧ (db1.rows.get ⟨i, hi'⟩).CreatedAt = (db.rows.get ⟨i, hi⟩).CreatedAt
          ∧ ((db.rows.get ⟨i, hi⟩).ID = p.ID →
              (db1.rows.get ⟨i, hi'⟩).UpdatedAt = now)
          ∧ ((db.rows.get ⟨i, hi⟩).ID ≠ p.ID →
              db1.rows.get ⟨i, hi'⟩ = db.rows.get ⟨i, hi⟩))
    ∧ (∀ t db1, Queries.ToggleTodoCompleted db id now = some (t, db1) →
      db1.rows.length = db.rows.length
      ∧ ∀ i (hi : i < db.rows.length) (hi' : i < db1.rows.length),
          (db1.rows.get ⟨i, hi'⟩).ID = (db.rows.get ⟨i, hi⟩).ID
          ∧ (db1.rows.get ⟨i, hi'⟩).CreatedAt = (db.rows.get ⟨i, hi⟩).CreatedAt
          ∧ (db1.rows.get ⟨i, hi'⟩).Title = (db.rows.get ⟨i, hi⟩).Title
          ∧ (db1.rows.get ⟨i, hi'⟩).Description
              = (db.rows.get ⟨i, hi⟩).Description
          ∧ ((db.rows.get ⟨i, hi⟩).ID = id →
              (db1.rows.get ⟨i, hi'⟩).UpdatedAt = now)
          ∧ ((db.rows.get ⟨i, hi⟩).ID ≠ id →
              db1.rows.get ⟨i, hi'⟩ = db.rows.get ⟨i, hi⟩))
    ∧ (∀ r ∈ (Queries.DeleteTodo db id).rows, r ∈ db.rows)
    ∧ (Queries.CreateTodo db q now).2.rows
        = db.rows ++ [(Queries.CreateTodo db q now).1] := by
  refine ⟨?_, ?_, ?_, rfl⟩
  · intro t db1 h
    have hrows := update_some_elim db p now t db1 h
    constructor
    · rw [hrows, List.length_map]
    · intro i hi hi'
      have hget : db1.rows.get ⟨i, hi'⟩
          = Queries.updateRow p now (db.rows.get ⟨i, hi⟩) := by
        have := hrows ▸ hi'
        simp only [hrows, List.get_eq_getElem, List.getElem_map]
      rw [hget]
      unfold Queries.updateRow
      by_cases hb : ((db.rows.get ⟨i, hi⟩).ID == p.ID) = true
      · rw [if_pos hb]
        exact ⟨rfl, rfl, fun _ => rfl, fun hne => absurd (beq_iff_eq.mp hb) hne⟩
      · rw [if_neg hb]
        exact ⟨rfl, rfl, fun he => absurd (beq_iff_eq.mpr he) hb, fun _ => rfl⟩
  · intro t db1 h
    have hrows := toggle_some_elim db id now t db1 h
    constructor
    · rw [hrows, List.length_map]
    · intro i hi hi'
      have hget : db1.rows.get ⟨i, hi'⟩
          = Queries.toggleRow id now (db.rows.get ⟨i, hi⟩) := by
        simp only [hrows, List.get_eq_getElem, List.getElem_map]
      rw [hget]
      unfold Queries.toggleRow
      by_cases hb : ((db.rows.get ⟨i, hi⟩).ID == id) = true
      · rw [if_pos hb]
        exact ⟨rfl, rfl, rfl, rfl, fun _ => rfl,
          fun hne => absurd (beq_iff_eq.mp hb) hne⟩
      · rw [if_neg hb]
        exact ⟨rfl, rfl, rfl, rfl, fun he => absurd (beq_iff_eq.mpr he) hb,
          fun _ => rfl⟩
  · intro r hr
    exact (List.mem_filter.mp hr).1

/-- Claim C10 witness: the frame conditions evaluated on a concrete two-row
store, updating and toggling row 1 at clock 9. -/
theorem C10_frame_conditions_witness :
    Queries.UpdateTodo ⟨[⟨1, "a", ⟨"", false⟩, 0, 3, 4⟩,
        ⟨2, "b", ⟨"x", true⟩, 1, 5, 6⟩], 3⟩ ⟨1, "c", ⟨"y", true⟩, 1⟩ 9
      = some (⟨1, "c", ⟨"y", true⟩, 1, 3, 9⟩,
          ⟨[⟨1, "c", ⟨"y", true⟩, 1, 3, 9⟩, ⟨2, "b", ⟨"x", true⟩, 1, 5, 6⟩], 3⟩)
    ∧ (∀ t db1,
        Queries.UpdateTodo ⟨[⟨1, "a", ⟨"", false⟩, 0, 3, 4⟩,
            ⟨2, "b", ⟨"x", true⟩, 1, 5, 6⟩], 3⟩ ⟨1, "c", ⟨"y", true⟩, 1⟩ 9
          = some (t, db1) →
        db1.rows.length
          = (⟨[⟨1, "a", ⟨"", false⟩, 0, 3, 4⟩,
              ⟨2, "b", ⟨"x", true⟩, 1, 5, 6⟩], 3⟩ : DB).rows.length) :=
  ⟨by decide,
   fun t db1 h =>
     ((C10_frame_conditions ⟨[⟨1, "a", ⟨"", false⟩, 0, 3, 4⟩,
         ⟨2, "b", ⟨"x", true⟩, 1, 5, 6⟩], 3⟩ ⟨1, "c", ⟨"y", true⟩, 1⟩ 1 9
         ⟨"t", ⟨"", false⟩, 0⟩).1 t db1 h).1⟩
